import Mathlib

/-!
Verification of the hybrid intent classifier (`classifier.py`).

The module routes a free-text question either to the structured ("sql") path
or to the semantic path.  Its decision procedure is built from:
word-boundary keyword matching (`_contains_keyword`), two phrase lists
(`DEFINITE_SQL`, `DEFINITE_SEMANTIC`), a product-name pattern detector
(`_is_product_name_query`), an override set (`_has_override_sql`), a
confidence scorer (`_compute_scores`), the main decision procedure
(`classify_intent`), a memoised LLM escalation (`_llm_classify`, wrapped in
`functools.lru_cache`), and a debug helper (`get_classification_details`).

The embedding below is a direct translation of that code.  Strings are
`String` (a structure over `List Char`); the character classes mirror the
ASCII fragment of Python's `\w`, `\s`, `\d`, `[A-Za-z]` and
`str.lower`/`str.strip` (all phrase-list entries and all inputs appearing
in the claims are ASCII).  The external language model is abstracted as a
function from the question to `Except String String`: `Except.error e`
models the collaborator raising an exception `e`, `Except.ok c` models it
returning the generated text `c`; the fixed system-prompt messages built in
`_llm_classify` are constant data handed to that black box and are elided.
The `lru_cache` around `_llm_classify` is modelled by threading an explicit
state (`EscState`) holding the key/value pairs cached so far plus a counter
of external invocations; the `maxsize=256` eviction is not modelled (no
scenario below ever holds more than two keys).  Telemetry writes have no
observable effect on the values returned; the `method` string passed to
`_log_decision` in each branch is recorded in the `Outcome` structure
returned by `classify_outcome`.
-/

namespace Classifier

/-- ASCII fragment of Python's regex word class `\w`: `[a-zA-Z0-9_]`. -/
def isWordChar (c : Char) : Bool := c.isAlphanum || c == '_'

/-- Word-character test on an optional character; `none` (no character,
i.e. start or end of the string) counts as a non-word character. -/
def isWordOpt : Option Char → Bool
  | none => false
  | some c => isWordChar c

/-- First character of a list, if any. -/
def headOpt : List Char → Option Char
  | [] => none
  | c :: _ => some c

/-- Regex `\b` between two neighbouring (optional) characters: a word
boundary holds iff exactly one of the two sides is a word character. -/
def boundaryB (a b : Option Char) : Bool := isWordOpt a != isWordOpt b

/-- Test whether `pat` starts `text` (on character lists). -/
def beginsWith : List Char → List Char → Bool
  | [], _ => true
  | _ :: _, [] => false
  | a :: as, b :: bs => a == b && beginsWith as bs

/-- One attempt of the regex `\b<kw>\b` at the current position: `prev` is
the character just before the position (`none` at the start of the text).
For a nonempty keyword the two `\b` assertions sit before the keyword's
first character and after its last one. -/
def matchAt (prev : Option Char) (kw text : List Char) : Bool :=
  match kw with
  | [] => boundaryB prev (headOpt text)
  | k0 :: kt =>
      beginsWith (k0 :: kt) text && boundaryB prev (some k0)
        && boundaryB (some (kt.getLastD k0)) (headOpt (List.drop (kt.length + 1) text))

/-- Scan mirroring `re.search` of `\b<kw>\b` over the text: try every
position, carrying the previous character for the left `\b` test. -/
def searchKeyword (kw : List Char) : Option Char → List Char → Bool
  | prev, [] => matchAt prev kw []
  | prev, c :: rest => matchAt prev kw (c :: rest) || searchKeyword kw (some c) rest

/-- Embedding of `_contains_keyword(text, keyword)` from `classifier.py`:
`re.search(r"\b" + re.escape(keyword) + r"\b", text)` as a Boolean.
The keyword is taken literally (it is `re.escape`d in the source). -/
def contains_keyword (text keyword : String) : Bool :=
  searchKeyword keyword.data none text.data

/-- Transcription of the `DEFINITE_SQL` list from `classifier.py`, verbatim. -/
def DEFINITE_SQL : List String := [
  "how many", "count", "number of", "total number",
  "how many products in stock",
  "how many available",
  "average", "avg", "mean",
  "sum", "total",
  "average price", "avg price",
  "average rating", "avg rating",
  "average discount", "avg discount",
  "average delivery", "avg delivery",
  "average score", "avg score",
  "total stock", "total inventory", "stock available",
  "total sales", "total units", "units sold",
  "total revenue", "revenue",
  "total reviews", "review count",
  "most expensive", "highest price", "costliest",
  "cheapest", "lowest price", "least expensive",
  "best rated", "highest rated", "top rated",
  "worst rated", "lowest rated",
  "best selling", "most sold", "top selling", "popular",
  "highest discount", "most discount", "best deal", "biggest discount",
  "fastest delivery", "quickest delivery",
  "highest score", "best score",
  "highest seller rating", "best seller",
  "most reviewed", "most reviews",
  "longest warranty", "best warranty",
  "lightest", "heaviest",
  "under", "below", "less than", "cheaper than",
  "above", "over", "more than", "greater than",
  "between",
  "with rating above", "rating above",
  "with rating below", "rating below",
  "rating greater", "rating less",
  "sort by price", "order by price",
  "sort by rating", "order by rating",
  "sort by discount",
  "top 5", "top 10", "top 3",
  "first 5", "first 10",
  "in stock",
  "out of stock",
  "list all", "show all", "all products",
  "group by", "breakdown", "distribution",
  "minimum", "maximum",
  "which city", "seller count",
  "how many sellers", "how many cities",
  "listed in", "listed on", "listed after", "listed before",
  "newest", "oldest", "recent",
  "returnable products", "non returnable",
  "accept cod", "accept upi", "accept card", "accept wallet",
  "payment mode"]

/-- Transcription of the `DEFINITE_SEMANTIC` list from `classifier.py`, verbatim. -/
def DEFINITE_SEMANTIC : List String := [
  "what is the price", "price of", "cost of",
  "how much is", "how much does",
  "tell me about", "describe", "details of",
  "info about", "information about", "about the product",
  "is there", "do you have", "is it available",
  "available in",
  "warranty of", "warranty on",
  "return policy of", "return window",
  "delivery time for", "when will",
  "color of", "size of", "weight of",
  "seller of", "who sells", "where is",
  "payment modes for", "how to pay",
  "rating of", "reviews of",
  "discount on", "offer on",
  "seller rating of",
  "show me", "find me", "search for",
  "recommend", "suggest",
  "similar to", "like the",
  "is there any", "any product", "any brand",
  "do you sell"]

/-- The alternation words of the first entry of `PRODUCT_NAME_PATTERNS`:
`r"\b(model|edition|series|prime|ultra|pro|max|mini|lite|plus)\b"`. -/
def PRODUCT_NAME_PATTERN_WORDS : List String :=
  ["model", "edition", "series", "prime", "ultra", "pro", "max", "mini", "lite", "plus"]

/-- Transcription of the `OVERRIDE_SQL_KEYWORDS` list from `classifier.py`, verbatim. -/
def OVERRIDE_SQL_KEYWORDS : List String := [
  "how many", "count", "average", "avg",
  "total", "sum", "list all", "show all",
  "top 5", "top 10", "top 3"]

/-- Tail of a match of the second entry of `PRODUCT_NAME_PATTERNS`,
`r"\b[A-Za-z]+\s+\d{2,4}\b"`, after its first letter: the rest of the
(maximal) letter run, then at least one whitespace character, then a digit
run of length 2 to 4 followed by a non-word character or the end.  (The
letter run must be maximal and the digit run exactly 2-4 long: any other
split is ruled out by backtracking, since `[A-Za-z]`, `\s` and `\d` are
pairwise disjoint and a digit is a word character.) -/
def wordNumberTail (rest : List Char) : Bool :=
  match rest.dropWhile Char.isAlpha with
  | [] => false
  | w :: ws =>
      Char.isWhitespace w &&
        (let afterWs := List.dropWhile Char.isWhitespace (w :: ws)
         let ds := afterWs.takeWhile Char.isDigit
         let afterDs := afterWs.dropWhile Char.isDigit
         Nat.ble 2 ds.length && Nat.ble ds.length 4 && !isWordOpt (headOpt afterDs))

/-- Scan mirroring `re.search` for `r"\b[A-Za-z]+\s+\d{2,4}\b"`: at each position,
the left `\b` requires the previous character to be a non-word character
(the first matched character is a letter), then `wordNumberTail`. -/
def wordNumberSearch : Option Char → List Char → Bool
  | _, [] => false
  | prev, c :: rest =>
      (!isWordOpt prev && Char.isAlpha c && wordNumberTail rest)
        || wordNumberSearch (some c) rest

/-- Character-wise lowercase map, Python `str.lower` (ASCII fragment). -/
def pyLower (s : String) : String := String.mk (s.data.map Char.toLower)

/-- Python `str.strip()`: drop whitespace from both ends. -/
def pyStrip (s : String) : String :=
  String.mk (((s.data.dropWhile Char.isWhitespace).reverse.dropWhile Char.isWhitespace).reverse)

/-- The normalisation `q = question.lower().strip()` performed at the top
of `classify_intent` and `get_classification_details`. -/
def normalizeQ (question : String) : String := pyStrip (pyLower question)

/-- Embedding of `_is_product_name_query(q)` from `classifier.py`: true iff one of the
two `PRODUCT_NAME_PATTERNS` regexes matches anywhere (`re.IGNORECASE`;
for the word alternation this is matching the lowercase words against the
lowercased text, for the second pattern the flag is inert since
`[A-Za-z]` already covers both cases). -/
def is_product_name_query (q : String) : Bool :=
  PRODUCT_NAME_PATTERN_WORDS.any (fun w => contains_keyword (pyLower q) w)
    || wordNumberSearch none q.data

/-- Embedding of `_has_override_sql(q)` from `classifier.py`. -/
def has_override_sql (q : String) : Bool :=
  OVERRIDE_SQL_KEYWORDS.any (fun kw => contains_keyword q kw)

/-- Embedding of `_compute_scores(q)` from `classifier.py`: how many phrases of each
list match; `sum(1 for kw in L if _contains_keyword(q, kw))` is the count
of matching phrases. -/
def compute_scores (q : String) : Nat × Nat :=
  (DEFINITE_SQL.countP (fun kw => contains_keyword q kw),
   DEFINITE_SEMANTIC.countP (fun kw => contains_keyword q kw))

/-- The label, logged method and the two scores handed to `_log_decision`
by the branch of `classify_intent` that decided (the product-name branch
logs scores `0, 0`, exactly as in the source). -/
structure Outcome where
  intent : String
  method : String
  sql_score : Nat
  semantic_score : Nat
deriving Repr, DecidableEq

/-- Embedding of `classify_intent(question)` with `model=None`, together with the
method and scores each branch logs.  The branches are in source order:
product-name short-circuit, the four score comparisons, then the
ambiguous tie; with no model the tie ends in the `default_fallback`
branch returning "semantic". -/
def classify_outcome (question : String) : Outcome :=
  if is_product_name_query (normalizeQ question) && !has_override_sql (normalizeQ question) then
    ⟨"semantic", "product_name_pattern", 0, 0⟩
  else if 0 < (compute_scores (normalizeQ question)).1 ∧ (compute_scores (normalizeQ question)).2 = 0 then
    ⟨"sql", "keyword_only",
      (compute_scores (normalizeQ question)).1, (compute_scores (normalizeQ question)).2⟩
  else if 0 < (compute_scores (normalizeQ question)).2 ∧ (compute_scores (normalizeQ question)).1 = 0 then
    ⟨"semantic", "keyword_only",
      (compute_scores (normalizeQ question)).1, (compute_scores (normalizeQ question)).2⟩
  else if (compute_scores (normalizeQ question)).2 < (compute_scores (normalizeQ question)).1 then
    ⟨"sql", "confidence_winner",
      (compute_scores (normalizeQ question)).1, (compute_scores (normalizeQ question)).2⟩
  else if (compute_scores (normalizeQ question)).1 < (compute_scores (normalizeQ question)).2 then
    ⟨"semantic", "confidence_winner",
      (compute_scores (normalizeQ question)).1, (compute_scores (normalizeQ question)).2⟩
  else
    ⟨"semantic", "default_fallback",
      (compute_scores (normalizeQ question)).1, (compute_scores (normalizeQ question)).2⟩

/-- The return value of `classify_intent(question)` (default `model=None`). -/
def classify_intent (question : String) : String := (classify_outcome question).intent

/-- The dictionary returned by `get_classification_details(question)`. -/
structure Details where
  question : String
  intent : String
  sql_score : Nat
  semantic_score : Nat
  method : String
  product_pattern : Bool
  sql_override : Bool
deriving Repr, DecidableEq

/-- Embedding of `get_classification_details(question)` from `classifier.py`,
translated branch by branch. -/
def get_classification_details (question : String) : Details :=
  if is_product_name_query (normalizeQ question) && !has_override_sql (normalizeQ question) then
    ⟨question, "semantic",
      (compute_scores (normalizeQ question)).1, (compute_scores (normalizeQ question)).2,
      "product_name_pattern",
      is_product_name_query (normalizeQ question), has_override_sql (normalizeQ question)⟩
  else if (compute_scores (normalizeQ question)).2 < (compute_scores (normalizeQ question)).1 then
    ⟨question, "sql",
      (compute_scores (normalizeQ question)).1, (compute_scores (normalizeQ question)).2,
      if 0 < (compute_scores (normalizeQ question)).2 then "confidence_winner" else "keyword_only",
      is_product_name_query (normalizeQ question), has_override_sql (normalizeQ question)⟩
  else if (compute_scores (normalizeQ question)).1 < (compute_scores (normalizeQ question)).2 then
    ⟨question, "semantic",
      (compute_scores (normalizeQ question)).1, (compute_scores (normalizeQ question)).2,
      if 0 < (compute_scores (normalizeQ question)).1 then "confidence_winner" else "keyword_only",
      is_product_name_query (normalizeQ question), has_override_sql (normalizeQ question)⟩
  else
    ⟨question, "ambiguous",
      (compute_scores (normalizeQ question)).1, (compute_scores (normalizeQ question)).2,
      "needs_llm_fallback",
      is_product_name_query (normalizeQ question), has_override_sql (normalizeQ question)⟩

/-- Python `str.split()` with no argument on a character list: split on
whitespace runs, dropping empty pieces. -/
def pySplitAux : List Char → List Char → List (List Char)
  | [], acc => if acc.isEmpty then [] else [acc.reverse]
  | c :: rest, acc =>
      if Char.isWhitespace c then
        if acc.isEmpty then pySplitAux rest []
        else acc.reverse :: pySplitAux rest []
      else pySplitAux rest (c :: acc)

/-- Python `s.split()` (no separator argument). -/
def pySplit (s : String) : List String := (pySplitAux s.data []).map String.mk

/-- Substring scan: does `needle` occur contiguously inside the list? -/
def substrSearch (needle : List Char) : List Char → Bool
  | [] => beginsWith needle []
  | c :: rest => beginsWith needle (c :: rest) || substrSearch needle rest

/-- Python `needle in haystack` on strings. -/
def containsSubstr (haystack needle : String) : Bool :=
  substrSearch needle.data haystack.data

/-- The result-processing tail of `_llm_classify`:
`intent = result.content.strip().lower().split()[0]` followed by
`return "sql" if "sql" in intent else "semantic"`.  Indexing `[0]` into
the empty list raises `IndexError`, modelled as `Except.error`. -/
def interpretLlm (content : String) : Except String String :=
  match pySplit (pyLower (pyStrip content)) with
  | [] => Except.error "IndexError"
  | tok :: _ => Except.ok (if containsSubstr tok "sql" then "sql" else "semantic")

/-- State of the `lru_cache` around `_llm_classify` within one process
run, plus a counter of how many times `model.invoke` was executed. -/
structure EscState where
  cache : List (String × String)
  calls : Nat
deriving Repr, DecidableEq

/-- Embedding of `_llm_classify(question, model)` under `@lru_cache`: the cache key is
the argument tuple, i.e. the exact `question` string (a single fixed model
per scenario).  On a hit the cached label is returned with no external
call; on a miss `model.invoke` runs (counted in `calls`), its result is
processed by `interpretLlm`, and only a successfully produced label is
stored (an exception propagates and `lru_cache` caches nothing). -/
def llm_classify (model : String → Except String String) (question : String)
    (st : EscState) : Except String String × EscState :=
  match st.cache.lookup question with
  | some label => (Except.ok label, st)
  | none =>
      match model question with
      | Except.error e => (Except.error e, ⟨st.cache, st.calls + 1⟩)
      | Except.ok content =>
          match interpretLlm content with
          | Except.error e => (Except.error e, ⟨st.cache, st.calls + 1⟩)
          | Except.ok label =>
              (Except.ok label, ⟨st.cache ++ [(question, label)], st.calls + 1⟩)

/-- Embedding of `classify_intent(question, model)` with an optional escalation model,
threading the escalation-cache state.  The decided branches never touch
the model; the tie branch calls `_llm_classify(question, model)` — note
the source passes the raw `question`, not the normalised `q`.  A value
`Except.error e` models the call raising `e` to its caller. -/
def classify_intent_with (question : String)
    (model : Option (String → Except String String)) (st : EscState) :
    Except String String × EscState :=
  if is_product_name_query (normalizeQ question) && !has_override_sql (normalizeQ question) then
    (Except.ok "semantic", st)
  else if 0 < (compute_scores (normalizeQ question)).1 ∧ (compute_scores (normalizeQ question)).2 = 0 then
    (Except.ok "sql", st)
  else if 0 < (compute_scores (normalizeQ question)).2 ∧ (compute_scores (normalizeQ question)).1 = 0 then
    (Except.ok "semantic", st)
  else if (compute_scores (normalizeQ question)).2 < (compute_scores (normalizeQ question)).1 then
    (Except.ok "sql", st)
  else if (compute_scores (normalizeQ question)).1 < (compute_scores (normalizeQ question)).2 then
    (Except.ok "semantic", st)
  else
    match model with
    | none => (Except.ok "semantic", st)
    | some m => llm_classify m question st

/-- A question reaches the ambiguous tie branch of `classify_intent`:
the product-name short-circuit does not fire and the two scores are equal. -/
def isAmbiguous (question : String) : Bool :=
  (!(is_product_name_query (normalizeQ question) && !has_override_sql (normalizeQ question)))
    && ((compute_scores (normalizeQ question)).1 == (compute_scores (normalizeQ question)).2)

/-- A collaborator whose `invoke` raises (network failure). -/
def failingModel : String → Except String String := fun _ => Except.error "network failure"

/-- A collaborator that returns empty generated text. -/
def emptyOutputModel : String → Except String String := fun _ => Except.ok ""

/-- A collaborator that always answers with the text "semantic". -/
def constSemModel : String → Except String String := fun _ => Except.ok "semantic"

/-- A phrase occurs in the text bounded on both sides by non-word-character
boundaries: the text splits as `pre ++ kw ++ post` where `pre` ends in a
non-word character (or is empty) and `post` starts with a non-word
character (or is empty). -/
def OccursBounded (kw text : List Char) : Prop :=
  ∃ pre post, text = pre ++ kw ++ post
    ∧ isWordOpt pre.getLast? = false
    ∧ isWordOpt (headOpt post) = false

/-- Last character of `pre`, falling back to `prev` when `pre` is empty:
the character preceding a match position during the `searchKeyword` scan. -/
def lastOr (prev : Option Char) (pre : List Char) : Option Char :=
  match pre.getLast? with
  | some c => some c
  | none => prev

/-- Both ends of a phrase are word characters (true for every phrase in
all three keyword lists). -/
def headLastWord (kw : String) : Bool :=
  isWordOpt (headOpt kw.data) && isWordOpt kw.data.getLast?


/-! Characterisation of the word-boundary matcher -/

theorem beginsWith_iff (pat : List Char) : ∀ text : List Char,
    beginsWith pat text = true ↔ ∃ post, text = pat ++ post := by
  induction pat with
  | nil => intro text; simp [beginsWith]
  | cons a as ih =>
    intro text
    cases text with
    | nil => simp [beginsWith]
    | cons b bs =>
      rw [show beginsWith (a :: as) (b :: bs) = (a == b && beginsWith as bs) from rfl,
        Bool.and_eq_true, beq_iff_eq, ih bs]
      constructor
      · rintro ⟨rfl, post, rfl⟩
        exact ⟨post, rfl⟩
      · rintro ⟨post, hpost⟩
        rw [List.cons_append] at hpost
        injection hpost with h1 h2
        exact ⟨h1.symm, post, h2⟩

theorem lastOr_none (pre : List Char) : lastOr none pre = pre.getLast? := by
  unfold lastOr
  cases pre.getLast? <;> rfl

theorem getLast?_cons_eq_some (a : Char) (l : List Char) :
    (a :: l).getLast? = some (l.getLastD a) := by
  induction l generalizing a with
  | nil => rfl
  | cons b bs ih => rw [List.getLast?_cons_cons, ih b, List.getLastD_cons]

theorem lastOr_cons (prev : Option Char) (c : Char) (pre : List Char) :
    lastOr prev (c :: pre) = lastOr (some c) pre := by
  cases pre with
  | nil => rfl
  | cons d ds =>
    unfold lastOr
    rw [getLast?_cons_eq_some c (d :: ds), getLast?_cons_eq_some d ds, List.getLastD_cons]

theorem bnot_eq_true (b : Bool) : ((!b) = true) ↔ b = false := by
  cases b <;> simp

theorem boundaryB_some_right (prev : Option Char) (c : Char) (hc : isWordChar c = true) :
    boundaryB prev (some c) = (!isWordOpt prev) := by
  unfold boundaryB
  rw [show isWordOpt (some c) = isWordChar c from rfl, hc]
  cases isWordOpt prev <;> rfl

theorem boundaryB_some_left (c : Char) (b : Option Char) (hc : isWordChar c = true) :
    boundaryB (some c) b = (!isWordOpt b) := by
  unfold boundaryB
  rw [show isWordOpt (some c) = isWordChar c from rfl, hc]
  cases isWordOpt b <;> rfl

theorem matchAt_iff (k0 : Char) (kt : List Char)
    (h0 : isWordChar k0 = true) (hl : isWordChar (kt.getLastD k0) = true)
    (prev : Option Char) (text : List Char) :
    matchAt prev (k0 :: kt) text = true ↔
      ∃ post, text = (k0 :: kt) ++ post
        ∧ isWordOpt prev = false ∧ isWordOpt (headOpt post) = false := by
  simp only [matchAt]
  rw [Bool.and_eq_true, Bool.and_eq_true, beginsWith_iff,
    boundaryB_some_right prev k0 h0, boundaryB_some_left (kt.getLastD k0) _ hl,
    bnot_eq_true, bnot_eq_true]
  constructor
  · rintro ⟨⟨⟨post, rfl⟩, hb⟩, ha⟩
    have hd : List.drop (kt.length + 1) ((k0 :: kt) ++ post) = post := by
      have hlen : (k0 :: kt).length = kt.length + 1 := rfl
      rw [← hlen, List.drop_left]
    rw [hd] at ha
    exact ⟨post, rfl, hb, ha⟩
  · rintro ⟨post, rfl, hp, hq⟩
    have hd : List.drop (kt.length + 1) ((k0 :: kt) ++ post) = post := by
      have hlen : (k0 :: kt).length = kt.length + 1 := rfl
      rw [← hlen, List.drop_left]
    refine ⟨⟨⟨post, rfl⟩, hp⟩, ?_⟩
    rw [hd]
    exact hq

theorem search_iff (k0 : Char) (kt : List Char)
    (h0 : isWordChar k0 = true) (hl : isWordChar (kt.getLastD k0) = true) :
    ∀ (text : List Char) (prev : Option Char),
      searchKeyword (k0 :: kt) prev text = true ↔
        ∃ pre post, text = pre ++ (k0 :: kt) ++ post
          ∧ isWordOpt (lastOr prev pre) = false
          ∧ isWordOpt (headOpt post) = false := by
  intro text
  induction text with
  | nil =>
    intro prev
    rw [searchKeyword, matchAt_iff k0 kt h0 hl]
    constructor
    · rintro ⟨post, h, -, -⟩
      exact absurd h (by simp)
    · rintro ⟨pre, post, h, -, -⟩
      exact absurd h (by simp)
  | cons c rest ih =>
    intro prev
    rw [searchKeyword, Bool.or_eq_true, matchAt_iff k0 kt h0 hl, ih (some c)]
    constructor
    · rintro (⟨post, heq, hp, hq⟩ | ⟨pre, post, heq, hp, hq⟩)
      · exact ⟨[], post, heq, hp, hq⟩
      · refine ⟨c :: pre, post, ?_, ?_, hq⟩
        · rw [List.cons_append, List.cons_append, heq]
        · rw [lastOr_cons]
          exact hp
    · rintro ⟨pre, post, heq, hp, hq⟩
      cases pre with
      | nil =>
        exact Or.inl ⟨post, heq, hp, hq⟩
      | cons c2 pre2 =>
        right
        rw [List.cons_append, List.cons_append] at heq
        injection heq with h1 h2
        subst h1
        rw [lastOr_cons] at hp
        exact ⟨pre2, post, h2, hp, hq⟩

theorem contains_keyword_iff (text kw : String)
    (h0 : isWordOpt (headOpt kw.data) = true)
    (hl : isWordOpt kw.data.getLast? = true) :
    contains_keyword text kw = true ↔ OccursBounded kw.data text.data := by
  unfold contains_keyword OccursBounded
  cases hk : kw.data with
  | nil => rw [hk] at h0; simp [headOpt, isWordOpt] at h0
  | cons k0 kt =>
    have h0' : isWordChar k0 = true := by
      rw [hk] at h0; simpa [headOpt, isWordOpt] using h0
    have hl' : isWordChar (kt.getLastD k0) = true := by
      rw [hk, getLast?_cons_eq_some] at hl
      simpa [isWordOpt] using hl
    rw [search_iff k0 kt h0' hl' text.data none]
    constructor
    · rintro ⟨pre, post, h1, h2, h3⟩
      rw [lastOr_none] at h2
      exact ⟨pre, post, h1, h2, h3⟩
    · rintro ⟨pre, post, h1, h2, h3⟩
      rw [← lastOr_none pre] at h2
      exact ⟨pre, post, h1, h2, h3⟩

/-! Monotonicity under appending at a non-word boundary -/

theorem occursBounded_append (kw t r : List Char)
    (hr : isWordOpt (headOpt r) = false) (h : OccursBounded kw t) :
    OccursBounded kw (t ++ r) := by
  obtain ⟨pre, post, rfl, hp, hq⟩ := h
  refine ⟨pre, post ++ r, by simp [List.append_assoc], hp, ?_⟩
  cases post with
  | nil => simpa [headOpt] using hr
  | cons x xs => simpa [headOpt] using hq

theorem contains_keyword_append (t r kw : String)
    (hk : headLastWord kw = true)
    (hr : isWordOpt (headOpt r.data) = false)
    (h : contains_keyword t kw = true) :
    contains_keyword (t ++ r) kw = true := by
  rw [headLastWord, Bool.and_eq_true] at hk
  obtain ⟨h0, hl⟩ := hk
  rw [contains_keyword_iff t kw h0 hl] at h
  rw [contains_keyword_iff (t ++ r) kw h0 hl, String.data_append]
  exact occursBounded_append kw.data t.data r.data hr h

theorem definite_sql_word_ended : DEFINITE_SQL.all headLastWord = true := by rfl

theorem definite_semantic_word_ended : DEFINITE_SEMANTIC.all headLastWord = true := by rfl

/-! Reaching the ambiguous tie branch -/

theorem classify_tie_some (question : String) (m : String → Except String String)
    (st : EscState) (h : isAmbiguous question = true) :
    classify_intent_with question (some m) st = llm_classify m question st := by
  unfold isAmbiguous at h
  rw [Bool.and_eq_true] at h
  obtain ⟨h1, h2⟩ := h
  rw [bnot_eq_true] at h1
  have hs : (compute_scores (normalizeQ question)).1 = (compute_scores (normalizeQ question)).2 :=
    beq_iff_eq.mp h2
  unfold classify_intent_with
  rw [if_neg (by simp [h1]), if_neg (by omega), if_neg (by omega),
    if_neg (by omega), if_neg (by omega)]


/-! Claim theorems -/

/-- C1: for every input string, `classify_intent` (with its default
`model=None`) returns exactly one of the two routing labels "sql" and
"semantic" — in this embedding it is a total function into that set, which
is the never-raises contract — and the empty string falls through to the
ambiguous tie with both scores zero, yielding the label "semantic" via
`default_fallback`. -/
theorem c1_always_labels :
    (∀ question : String,
        classify_intent question = "sql" ∨ classify_intent question = "semantic")
    ∧ compute_scores (normalizeQ "") = (0, 0)
    ∧ isAmbiguous "" = true
    ∧ classify_outcome "" = ⟨"semantic", "default_fallback", 0, 0⟩ := by
  refine ⟨?_, rfl, rfl, rfl⟩
  intro question
  unfold classify_intent classify_outcome
  repeat' split
  all_goals first | exact Or.inl rfl | exact Or.inr rfl

/-- C2 counterexample: the claim says an exception raised by the
escalation collaborator is caught inside `classify_intent` and turned into
the label "semantic"; in the code there is no catch, so on the ambiguous
question "xyz" with a raising collaborator the call propagates the
exception instead of returning `Except.ok "semantic"`. -/
theorem c2_counterexample :
    (classify_intent_with "xyz" (some failingModel) ⟨[], 0⟩).1
        = Except.error "network failure"
    ∧ (classify_intent_with "xyz" (some failingModel) ⟨[], 0⟩).1
        ≠ Except.ok "semantic" := by
  have h1 : (classify_intent_with "xyz" (some failingModel) ⟨[], 0⟩).1
      = Except.error "network failure" := rfl
  refine ⟨h1, ?_⟩
  rw [h1]
  intro hcontra
  exact Except.noConfusion hcontra

/-- C2 amended: if the escalation collaborator raises `e` on an ambiguous
question that is not already cached, `classify_intent` does not catch it:
the exception propagates to the caller (and the external call is still
counted; nothing is cached). -/
theorem c2_amended_propagates (question : String) (m : String → Except String String)
    (e : String) (st : EscState)
    (hamb : isAmbiguous question = true)
    (hmiss : st.cache.lookup question = none)
    (herr : m question = Except.error e) :
    classify_intent_with question (some m) st
      = (Except.error e, ⟨st.cache, st.calls + 1⟩) := by
  rw [classify_tie_some question m st hamb]
  unfold llm_classify
  rw [hmiss, herr]

/-- Witness for C2 amended at the concrete ambiguous question "xyz". -/
theorem c2_witness :
    classify_intent_with "xyz" (some failingModel) ⟨[], 0⟩
      = (Except.error "network failure", ⟨[], 1⟩) :=
  c2_amended_propagates "xyz" failingModel "network failure" ⟨[], 0⟩ rfl rfl rfl

/-- C3 counterexample: the claim says empty or whitespace-only collaborator
output degrades to "semantic" without raising; in the code
`content.strip().lower().split()[0]` raises `IndexError` on such output,
and the exception surfaces through the classification call. -/
theorem c3_counterexample :
    interpretLlm "" = Except.error "IndexError"
    ∧ interpretLlm "   " = Except.error "IndexError"
    ∧ (classify_intent_with "xyz" (some emptyOutputModel) ⟨[], 0⟩).1
        = Except.error "IndexError"
    ∧ (classify_intent_with "xyz" (some emptyOutputModel) ⟨[], 0⟩).1
        ≠ Except.ok "semantic" := by
  refine ⟨rfl, rfl, rfl, ?_⟩
  have h1 : (classify_intent_with "xyz" (some emptyOutputModel) ⟨[], 0⟩).1
      = Except.error "IndexError" := rfl
  rw [h1]
  intro hcontra
  exact Except.noConfusion hcontra

/-- C3 amended: when the collaborator output contains at least one
whitespace-separated token, the first token maps to "sql" iff it contains
the substring "sql", else "semantic" (so unrecognised nonempty output does
degrade to "semantic"); but empty or whitespace-only output raises an
`IndexError` instead of degrading. -/
theorem c3_amended_first_token :
    (∀ (content tok : String) (rest : List String),
        pySplit (pyLower (pyStrip content)) = tok :: rest →
        interpretLlm content
          = Except.ok (if containsSubstr tok "sql" then "sql" else "semantic"))
    ∧ (∀ content : String,
        pySplit (pyLower (pyStrip content)) = [] →
        interpretLlm content = Except.error "IndexError") := by
  constructor
  · intro content tok rest h
    unfold interpretLlm
    rw [h]
  · intro content h
    unfold interpretLlm
    rw [h]

/-- Witness for C3 amended on concrete collaborator outputs. -/
theorem c3_witness :
    interpretLlm "SQL." = Except.ok "sql"
    ∧ interpretLlm "  " = Except.error "IndexError" :=
  ⟨c3_amended_first_token.1 "SQL." "sql." [] rfl, c3_amended_first_token.2 "  " rfl⟩

/-- C4 counterexample: the claim says the escalation cache key is the
case-folded question, so "XYZ" and "xyz" (equal after case folding, both
ambiguous) should cause at most one external call; in the code the
`lru_cache` key is the exact raw question, and the two calls invoke the
external model twice. -/
theorem c4_counterexample :
    pyLower "XYZ" = pyLower "xyz"
    ∧ isAmbiguous "XYZ" = true
    ∧ isAmbiguous "xyz" = true
    ∧ ((classify_intent_with "xyz" (some constSemModel)
          (classify_intent_with "XYZ" (some constSemModel) ⟨[], 0⟩).2).2).calls = 2 :=
  ⟨rfl, rfl, rfl, rfl⟩

/-- C4 amended: the memoisation cache is keyed by the exact question text
as passed (not case-normalised): two ambiguous questions with different
raw text each trigger their own external call, each getting its own cache
entry. -/
theorem c4_amended_exact_key (q1 q2 : String) (m : String → Except String String)
    (c1 l1 c2 l2 : String)
    (h1 : isAmbiguous q1 = true) (h2 : isAmbiguous q2 = true)
    (hne : (q2 == q1) = false)
    (hm1 : m q1 = Except.ok c1) (hi1 : interpretLlm c1 = Except.ok l1)
    (hm2 : m q2 = Except.ok c2) (hi2 : interpretLlm c2 = Except.ok l2) :
    classify_intent_with q1 (some m) ⟨[], 0⟩ = (Except.ok l1, ⟨[(q1, l1)], 1⟩)
    ∧ classify_intent_with q2 (some m) ⟨[(q1, l1)], 1⟩
        = (Except.ok l2, ⟨[(q1, l1), (q2, l2)], 2⟩) := by
  constructor
  · rw [classify_tie_some q1 m _ h1]
    simp only [llm_classify, List.lookup, hm1, hi1, List.nil_append]
  · rw [classify_tie_some q2 m _ h2]
    simp only [llm_classify, List.lookup, hne, hm2, hi2, List.cons_append, List.nil_append]

/-- Witness for C4 amended on "XYZ" and "xyz" with a fixed collaborator. -/
theorem c4_witness :
    classify_intent_with "XYZ" (some constSemModel) ⟨[], 0⟩
      = (Except.ok "semantic", ⟨[("XYZ", "semantic")], 1⟩)
    ∧ classify_intent_with "xyz" (some constSemModel) ⟨[("XYZ", "semantic")], 1⟩
      = (Except.ok "semantic", ⟨[("XYZ", "semantic"), ("xyz", "semantic")], 2⟩) :=
  c4_amended_exact_key "XYZ" "xyz" constSemModel "semantic" "semantic" "semantic" "semantic"
    rfl rfl rfl rfl rfl rfl rfl

/-- C5 counterexample: extending the question "available" by " in stock"
makes exactly one additional distinct structured phrase ("in stock") match
and no other structured phrase, yet the semantic score changes from 0 to 1
(the extension also completes the semantic phrase "available in"),
contradicting "never changes the semantic score". -/
theorem c5_counterexample :
    "available in stock" = "available" ++ " in stock"
    ∧ ("in stock" ∈ DEFINITE_SQL)
    ∧ contains_keyword "available" "in stock" = false
    ∧ DEFINITE_SQL.filter (fun kw => contains_keyword "available" kw) = []
    ∧ DEFINITE_SQL.filter (fun kw => contains_keyword "available in stock" kw) = ["in stock"]
    ∧ compute_scores "available" = (0, 0)
    ∧ compute_scores "available in stock" = (1, 1) := by
  refine ⟨rfl, by decide, rfl, rfl, rfl, rfl, rfl⟩

/-- C5 amended: extending a question with appended text that starts at a
non-word character (so that an additional structured phrase can match)
never decreases the structured score and never decreases the semantic
score; the semantic score is not necessarily unchanged — it can increase
when the extension also completes a semantic phrase. -/
theorem c5_amended_monotone (q r : String)
    (hr : isWordOpt (headOpt r.data) = false) :
    (compute_scores q).1 ≤ (compute_scores (q ++ r)).1
    ∧ (compute_scores q).2 ≤ (compute_scores (q ++ r)).2 := by
  unfold compute_scores
  constructor
  · apply List.countP_mono_left
    intro kw hkw h
    have hw : headLastWord kw = true := List.all_eq_true.mp definite_sql_word_ended kw hkw
    exact contains_keyword_append q r kw hw hr h
  · apply List.countP_mono_left
    intro kw hkw h
    have hw : headLastWord kw = true := List.all_eq_true.mp definite_semantic_word_ended kw hkw
    exact contains_keyword_append q r kw hw hr h

/-- Witness for C5 amended: appending " under" to "popular". -/
theorem c5_witness :
    (compute_scores "popular").1 ≤ (compute_scores ("popular" ++ " under")).1
    ∧ (compute_scores "popular").2 ≤ (compute_scores ("popular" ++ " under")).2 :=
  c5_amended_monotone "popular" " under" rfl

/-- C6: the keyword matcher reports a match iff the phrase occurs in the
text bounded on both sides by non-word-character boundaries (for phrases
whose first and last characters are word characters, which holds for every
phrase list entry); matching is case-insensitive in the classifier because
it always runs on the case-folded normalised question; and the two
boundary examples: "unpopular item" does not match "popular", "average"
does not match "avg". -/
theorem c6_word_boundary_matcher :
    (∀ text kw : String,
        isWordOpt (headOpt kw.data) = true → isWordOpt kw.data.getLast? = true →
        (contains_keyword text kw = true ↔ OccursBounded kw.data text.data))
    ∧ (∀ s t kw : String, pyLower s = pyLower t →
        contains_keyword (normalizeQ s) kw = contains_keyword (normalizeQ t) kw)
    ∧ contains_keyword "unpopular item" "popular" = false
    ∧ contains_keyword "average" "avg" = false := by
  refine ⟨fun text kw h0 hl => contains_keyword_iff text kw h0 hl, ?_, rfl, rfl⟩
  intro s t kw h
  unfold normalizeQ
  rw [h]

/-- Witness for C6 at concrete inputs. -/
theorem c6_witness :
    OccursBounded ("avg".data) ("avg price".data)
    ∧ contains_keyword (normalizeQ "Average Price") "avg price"
        = contains_keyword (normalizeQ "average price") "avg price" := by
  constructor
  · exact (c6_word_boundary_matcher.1 "avg price" "avg" rfl rfl).mp rfl
  · exact c6_word_boundary_matcher.2.1 "Average Price" "average price" "avg price" rfl

/-- C7 counterexample: on "how many adidas models" the product-name
pattern does NOT fire (the claim says the pattern word "model" is
detected; whole-word matching rejects "model" inside "models" and the
word-plus-number pattern finds no digits). -/
theorem c7_counterexample :
    is_product_name_query (normalizeQ "how many adidas models") = false := rfl

/-- C7 amended: on "how many adidas models" the product-name pattern does
not fire at all, the override phrase "how many" is present, and
`classify_intent` returns "sql" via the plain scoring path, logging method
"keyword_only" (scores 1 structured, 0 semantic). -/
theorem c7_amended_override_input :
    contains_keyword (normalizeQ "how many adidas models") "how many" = true
    ∧ has_override_sql (normalizeQ "how many adidas models") = true
    ∧ compute_scores (normalizeQ "how many adidas models") = (1, 0)
    ∧ classify_outcome "how many adidas models" = ⟨"sql", "keyword_only", 1, 0⟩
    ∧ classify_intent "how many adidas models" = "sql" :=
  ⟨rfl, rfl, rfl, rfl, rfl⟩

/-- C8: on "popular color options" the pattern detector does not fire, the
scorer gives structured score 1 (from the whole-word match of "popular")
and semantic score 0, and `classify_intent` returns "sql" with logged
method "keyword_only". -/
theorem c8_popular_color_options :
    is_product_name_query (normalizeQ "popular color options") = false
    ∧ contains_keyword (normalizeQ "popular color options") "popular" = true
    ∧ compute_scores (normalizeQ "popular color options") = (1, 0)
    ∧ classify_outcome "popular color options" = ⟨"sql", "keyword_only", 1, 0⟩
    ∧ classify_intent "popular color options" = "sql" :=
  ⟨rfl, rfl, rfl, rfl, rfl⟩

/-- C9: with an escalation collaborator whose output on the ambiguous
question is well formed, the first `classify_intent` call invokes the
external model exactly once and caches the label under the exact question
text, and a second call with the same text is served from the cache with
no further external call (state unchanged, calls stays 1). -/
theorem c9_memoization (question : String) (m : String → Except String String)
    (content label : String)
    (hamb : isAmbiguous question = true)
    (hm : m question = Except.ok content)
    (hi : interpretLlm content = Except.ok label) :
    classify_intent_with question (some m) ⟨[], 0⟩
      = (Except.ok label, ⟨[(question, label)], 1⟩)
    ∧ classify_intent_with question (some m) ⟨[(question, label)], 1⟩
      = (Except.ok label, ⟨[(question, label)], 1⟩) := by
  constructor
  · rw [classify_tie_some question m _ hamb]
    simp only [llm_classify, List.lookup, hm, hi, List.nil_append]
  · rw [classify_tie_some question m _ hamb]
    simp only [llm_classify, List.lookup, beq_self_eq_true]

/-- Witness for C9 at the concrete ambiguous question "xyz". -/
theorem c9_witness :
    classify_intent_with "xyz" (some constSemModel) ⟨[], 0⟩
      = (Except.ok "semantic", ⟨[("xyz", "semantic")], 1⟩)
    ∧ classify_intent_with "xyz" (some constSemModel) ⟨[("xyz", "semantic")], 1⟩
      = (Except.ok "semantic", ⟨[("xyz", "semantic")], 1⟩) :=
  c9_memoization "xyz" constSemModel "semantic" "semantic" rfl rfl rfl

/-- C10: whenever the debug helper reports an intent other than
"ambiguous", `classify_intent` with no model returns the same label, and
the method it logs equals the method field of the debug helper. -/
theorem c10_details_agree (question : String)
    (h : (get_classification_details question).intent ≠ "ambiguous") :
    classify_intent question = (get_classification_details question).intent
    ∧ (classify_outcome question).method = (get_classification_details question).method := by
  unfold get_classification_details at h
  unfold classify_intent classify_outcome get_classification_details
  by_cases hb : (is_product_name_query (normalizeQ question)
      && !has_override_sql (normalizeQ question)) = true
  · simp only [if_pos hb]
    constructor <;> trivial
  · simp only [if_neg hb] at h ⊢
    obtain ⟨a, b, hab⟩ : ∃ a b, compute_scores (normalizeQ question) = (a, b) :=
      ⟨(compute_scores (normalizeQ question)).1, (compute_scores (normalizeQ question)).2, rfl⟩
    rw [hab] at h ⊢
    dsimp only at h ⊢
    rcases Nat.lt_trichotomy a b with hlt | heq | hgt
    · by_cases ha : a = 0
      · have hc1 : ¬(0 < a ∧ b = 0) := by omega
        have hc2 : 0 < b ∧ a = 0 := ⟨by omega, ha⟩
        have hno : ¬ b < a := by omega
        have hm : ¬ 0 < a := by omega
        simp only [if_neg hc1, if_pos hc2, if_neg hno, if_pos hlt, if_neg hm]
        constructor <;> trivial
      · have hc1 : ¬(0 < a ∧ b = 0) := by omega
        have hc2 : ¬(0 < b ∧ a = 0) := by omega
        have hno : ¬ b < a := by omega
        have hm : 0 < a := by omega
        simp only [if_neg hc1, if_neg hc2, if_neg hno, if_pos hlt, if_pos hm]
        constructor <;> trivial
    · have hno1 : ¬ b < a := by omega
      have hno2 : ¬ a < b := by omega
      simp only [if_neg hno1, if_neg hno2] at h
      exact absurd rfl h
    · by_cases hb0 : b = 0
      · have hc1 : 0 < a ∧ b = 0 := ⟨by omega, hb0⟩
        have hm : ¬ 0 < b := by omega
        simp only [if_pos hc1, if_pos hgt, if_neg hm]
        constructor <;> trivial
      · have hc1 : ¬(0 < a ∧ b = 0) := by omega
        have hc2 : ¬(0 < b ∧ a = 0) := by omega
        have hm : 0 < b := by omega
        simp only [if_neg hc1, if_neg hc2, if_pos hgt, if_pos hm]
        constructor <;> trivial

/-- Witness for C10 at a question the debug helper decides. -/
theorem c10_witness :
    classify_intent "popular color options"
        = (get_classification_details "popular color options").intent
    ∧ (classify_outcome "popular color options").method
        = (get_classification_details "popular color options").method :=
  c10_details_agree "popular color options" (by decide)

end Classifier
